import Mathlib

/-
Verification of the middleware composition engine and built-in middleware
(rate limiter, timeout guard, CORS, request context store) of the
snaapi middleware library, as a shallow embedding in Lean 4.

The embedding models JS promises that either fulfil with a value or reject
with an error as `Except Err`.  The mutable `index` variable captured by the
composed handler is threaded explicitly as an `Int` state; a thrown error
leaves the state intact (as a JS mutable variable would survive a throw).
-/

namespace Snaapi

/-- A JS `Error` value; only the message is observable in this library. -/
structure Err where
  message : String
deriving Repr, DecidableEq

/-- Header / object key-value lists.  `assocSet` models both `Headers.set`
and JS object property assignment: replace the existing entry in place,
or append when absent. -/
abbrev Assoc := List (String × String)

/-- Replace-or-append, modelling `Headers.set` and `obj[key] = value`. -/
def assocSet (l : Assoc) (k v : String) : Assoc :=
  if l.any (fun p => p.1 = k) then
    l.map (fun p => if p.1 = k then (k, v) else p)
  else
    l ++ [(k, v)]

/-- Lookup, modelling `Headers.get` and `obj[key]` (first match). -/
def assocGet (l : Assoc) (k : String) : Option String :=
  (l.find? (fun p => p.1 = k)).map Prod.snd

/-- An inbound HTTP request: method, URL and headers. -/
structure Request where
  method : String
  url : String
  headers : Assoc
deriving Repr, DecidableEq

/-- An outbound HTTP response: status code, headers and an optional body
(`new Response(null, ...)` gives body `none`). -/
structure Response where
  status : Int
  headers : Assoc
  body : Option String
deriving Repr, DecidableEq

/-! ## The dispatcher (`compose` in the source)

A composed handler call owns one mutable `index : Int` (initially `-1`).
`M α` is a computation that reads and updates that index and either
fulfils with an `α` or rejects with an `Err`. -/

/-- A promise-returning computation over the shared dispatch index. -/
abbrev M (α : Type) : Type := Int → Except Err α × Int

/-- A terminal handler: `(req: Request) => Response | Promise<Response>`. -/
abbrev Handler := Request → Except Err Response

/-- A middleware: `(req, next) => Promise<Response>` where `next` is the
continuation closure handed to it by the dispatcher. -/
abbrev Middleware := Request → M Response → M Response

/-- The error thrown by `dispatch` when `i <= index`
(`new Error("next() called multiple times")`). -/
def doubleInvocationErr : Err := ⟨"next() called multiple times"⟩

/-- The error thrown by `dispatch` when `i` is past the terminal handler
(`new Error("No handler found")`). -/
def noHandlerErr : Err := ⟨"No handler found"⟩

/-- Default error handler: 500 with JSON body, from `defaultErrorHandler`. -/
def defaultErrorHandler (_e : Err) (_req : Request) : Except Err Response :=
  .ok { status := 500
        headers := [("Content-Type", "application/json")]
        body := some "\x7b\"error\":\"Internal Server Error\"\x7d" }

/-- Options of `compose`: `continueOnError` (default false) and
`errorHandler` (default `defaultErrorHandler`). -/
structure MiddlewareOptions where
  continueOnError : Bool := false
  errorHandler : Err → Request → Except Err Response := defaultErrorHandler

/-- The inner `dispatch(i)` function of `compose`, translated clause by
clause from the source: the double-invocation check and the handler
selection happen before the `try`; the `try`/`catch` wraps the invocation
of the selected middleware or handler; on error it either skips to
`dispatch(i + 1)` (`continueOnError`) or delegates to the error handler. -/
def dispatch (mws : List Middleware) (handler : Handler) (opts : MiddlewareOptions)
    (req : Request) (i : Nat) : M Response := fun index =>
  if (i : Int) ≤ index then
    (.error doubleInvocationErr, index)
  else
    -- `index = i` from here on (the assignment `index = i` in the source)
    if h1 : i < mws.length then
      match (mws.get ⟨i, h1⟩) req (dispatch mws handler opts req (i + 1)) (i : Int) with
      | (.ok r, index2) => (.ok r, index2)
      | (.error e, index2) =>
        if opts.continueOnError then
          dispatch mws handler opts req (i + 1) index2
        else
          (opts.errorHandler e req, index2)
    else if i = mws.length then
      match handler req with
      | .ok r => (.ok r, (i : Int))
      | .error e =>
        if opts.continueOnError then
          dispatch mws handler opts req (i + 1) (i : Int)
        else
          (opts.errorHandler e req, (i : Int))
    else
      (.error noHandlerErr, (i : Int))
termination_by mws.length + 2 - i
decreasing_by
  · omega
  · omega
  · omega

/-- `compose(middlewares, handler, options)` applied to a request:
run `dispatch(0)` with the fresh `index = -1`; the result the caller sees
is the settled promise (fulfilled response or rejection). -/
def compose (mws : List Middleware) (handler : Handler) (opts : MiddlewareOptions)
    (req : Request) : Except Err Response :=
  (dispatch mws handler opts req 0 (-1)).1

/-! ## Dispatcher theorems -/

/-- Helper: on a chain of pure pass-through middlewares, `dispatch i` (for a
fresh index strictly below `i`) returns exactly the handler result. -/
theorem dispatch_passthrough_aux (mws : List Middleware) (handler : Handler)
    (opts : MiddlewareOptions) (req : Request) (r : Response)
    (hmw : ∀ m ∈ mws, ∀ rq next, m rq next = next)
    (hh : handler req = .ok r) :
    ∀ d i, mws.length - i = d → i ≤ mws.length → ∀ index : Int, index < i →
      dispatch mws handler opts req i index = (.ok r, (mws.length : Int)) := by
  intro d
  induction d with
  | zero =>
    intro i hd hi index hidx
    have hie : i = mws.length := by omega
    subst hie
    rw [dispatch, if_neg (by omega), dif_neg (by omega), if_pos rfl, hh]
  | succ n ih =>
    intro i hd hi index hidx
    have hlt : i < mws.length := by omega
    rw [dispatch, if_neg (by omega), dif_pos hlt,
      hmw (mws.get ⟨i, hlt⟩) (mws.get_mem i hlt) req
        (dispatch mws handler opts req (i + 1)),
      ih (i + 1) (by omega) (by omega) (i : Int) (by omega)]

/-- C1: for every middleware sequence (the empty one included) of pure
pass-throughs (each calls its continuation once and returns its result
unchanged) and every terminal handler that returns a response without
raising, the composed handler returns exactly the handler result on the
request. -/
theorem compose_passthrough (mws : List Middleware) (handler : Handler)
    (opts : MiddlewareOptions) (req : Request) (r : Response)
    (hmw : ∀ m ∈ mws, ∀ rq next, m rq next = next)
    (hh : handler req = .ok r) :
    compose mws handler opts req = .ok r := by
  unfold compose
  rw [dispatch_passthrough_aux mws handler opts req r hmw hh (mws.length - 0) 0 rfl
    (by omega) (-1) (by omega)]

/-- Witness for C1: a two-stage pass-through chain returns the handler
response verbatim. -/
theorem compose_passthrough_witness :
    compose [fun _rq next => next, fun _rq next => next]
      (fun _ => .ok ⟨200, [], some "ok"⟩) {} ⟨"GET", "https://e.com/", []⟩
      = .ok ⟨200, [], some "ok"⟩ :=
  compose_passthrough _ _ _ _ _
    (by
      intro m hm rq next
      simp only [List.mem_cons, List.mem_singleton] at hm
      rcases hm with h | h | h
      · subst h; rfl
      · subst h; rfl
      · cases h)
    rfl

/-- Helper: an invocation of `dispatch i` at an index at or past `i`
rejects at once with the double-invocation error, touching nothing. -/
theorem dispatch_stuck (mws : List Middleware) (handler : Handler) (opts : MiddlewareOptions)
    (req : Request) (i : Nat) (index : Int) (hle : (i : Int) ≤ index) :
    dispatch mws handler opts req i index = (.error doubleInvocationErr, index) := by
  rw [dispatch, if_pos hle]

/-- Helper: a fresh invocation of `dispatch` at the terminal position runs
the handler. -/
theorem dispatch_last_ok (mws : List Middleware) (handler : Handler) (opts : MiddlewareOptions)
    (req : Request) (r : Response) (hh : handler req = .ok r)
    (i : Nat) (hi : i = mws.length) (index : Int) (hidx : index < i) :
    dispatch mws handler opts req i index = (.ok r, (i : Int)) := by
  rw [dispatch, if_neg (by omega), dif_neg (by omega), if_pos hi, hh]

/-- A middleware that invokes its continuation twice (the second call is
made after the first settles successfully, and its result is returned). -/
def callTwice : Middleware := fun _rq next => fun s =>
  match next s with
  | (.ok _, s1) => next s1
  | (.error e, s1) => (.error e, s1)

/-- C2 (amended): a second invocation of the continuation for stage `i`
(the shared index already at `i` or beyond) fails immediately with the
DoubleInvocation error, leaving the index unchanged, so no downstream
stage runs a second time.  The dispatcher then treats that error like any
downstream error: with `continueOnError := false` it is handed to the
error handler, whose result becomes the chain result, so the error is
converted rather than propagated; with `continueOnError := true` it
propagates to the caller as a raw rejection. -/
theorem dispatch_doubleInvocation (mws : List Middleware) (handler : Handler)
    (opts : MiddlewareOptions) (req : Request) (i : Nat) (index : Int)
    (hle : (i : Int) ≤ index)
    (eh : Err → Request → Except Err Response) (r : Response)
    (hh : handler req = .ok r) :
    dispatch mws handler opts req i index = (.error doubleInvocationErr, index)
    ∧ compose [callTwice] handler { continueOnError := false, errorHandler := eh } req
        = eh doubleInvocationErr req
    ∧ compose [callTwice] handler { continueOnError := true, errorHandler := eh } req
        = .error doubleInvocationErr := by
  refine ⟨by rw [dispatch, if_pos hle], ?_, ?_⟩
  · unfold compose
    rw [dispatch]
    simp only [List.length_singleton, Nat.cast_zero, Nat.cast_one, List.get]
    rw [if_neg (by omega), dif_pos (by omega)]
    have hct : callTwice req
        (dispatch [callTwice] handler { continueOnError := false, errorHandler := eh } req 1)
        (0 : Int) = (.error doubleInvocationErr, 1) := by
      unfold callTwice
      rw [dispatch_last_ok _ _ _ _ r hh 1 (by simp) 0 (by omega)]
      exact dispatch_stuck _ _ _ _ 1 1 (by omega)
    rw [hct]
    rfl
  · unfold compose
    rw [dispatch]
    simp only [List.length_singleton, Nat.cast_zero, Nat.cast_one, List.get]
    rw [if_neg (by omega), dif_pos (by omega)]
    have hct : callTwice req
        (dispatch [callTwice] handler { continueOnError := true, errorHandler := eh } req 1)
        (0 : Int) = (.error doubleInvocationErr, 1) := by
      unfold callTwice
      rw [dispatch_last_ok _ _ _ _ r hh 1 (by simp) 0 (by omega)]
      exact dispatch_stuck _ _ _ _ 1 1 (by omega)
    rw [hct]
    show (dispatch [callTwice] handler { continueOnError := true, errorHandler := eh }
      req (0 + 1) 1).1 = Except.error doubleInvocationErr
    rw [dispatch_stuck _ _ _ _ 1 1 (by omega)]

/-- Witness for C2 (amended). -/
theorem dispatch_doubleInvocation_witness :
    dispatch [] (fun _ => .ok ⟨200, [], some "ok"⟩) {} ⟨"GET", "https://e.com/", []⟩ 0 3
      = (.error doubleInvocationErr, 3)
    ∧ compose [callTwice] (fun _ => .ok ⟨200, [], some "ok"⟩)
        { continueOnError := false, errorHandler := defaultErrorHandler } ⟨"GET", "https://e.com/", []⟩
        = defaultErrorHandler doubleInvocationErr ⟨"GET", "https://e.com/", []⟩
    ∧ compose [callTwice] (fun _ => .ok ⟨200, [], some "ok"⟩)
        { continueOnError := true, errorHandler := defaultErrorHandler } ⟨"GET", "https://e.com/", []⟩
        = .error doubleInvocationErr :=
  dispatch_doubleInvocation [] (fun _ => .ok ⟨200, [], some "ok"⟩) {} ⟨"GET", "https://e.com/", []⟩
    0 3 (by omega) defaultErrorHandler ⟨200, [], some "ok"⟩ rfl

/-- Counterexample to C2 as stated: with the default policy
(`continueOnError = false`, default error handler), a middleware that
invokes its continuation twice makes the chain return the ordinary 500
error response produced by the error handler; the DoubleInvocation error
does not propagate to the caller. -/
theorem compose_doubleInvocation_cex :
    compose [callTwice] (fun _ => .ok ⟨200, [], some "ok"⟩) {} ⟨"GET", "https://e.com/", []⟩
      = .ok ⟨500, [("Content-Type", "application/json")],
          some "\x7b\"error\":\"Internal Server Error\"\x7d"⟩ := by
  unfold compose
  rw [dispatch]
  simp only [List.length_singleton, Nat.cast_zero, Nat.cast_one, List.get]
  rw [if_neg (by omega), dif_pos (by omega)]
  have hct : callTwice ⟨"GET", "https://e.com/", []⟩
      (dispatch [callTwice] (fun _ => .ok ⟨200, [], some "ok"⟩) {} ⟨"GET", "https://e.com/", []⟩ 1)
      (0 : Int) = (.error doubleInvocationErr, 1) := by
    unfold callTwice
    rw [dispatch_last_ok _ _ _ _ ⟨200, [], some "ok"⟩ rfl 1 (by simp) 0 (by omega)]
    exact dispatch_stuck _ _ _ _ 1 1 (by omega)
  rw [hct]
  rfl

/-- C3 (amended): with `continueOnError := false` and an error handler that
returns a response for every error on the given request, the composed
handler always returns a Response to its caller, whatever the middlewares
and the terminal handler do (raise or not).  (Under
`continueOnError := true` this fails: see the counterexample.) -/
theorem compose_always_response (mws : List Middleware) (handler : Handler)
    (eh : Err → Request → Except Err Response) (req : Request)
    (heh : ∀ e, ∃ r, eh e req = .ok r) :
    ∃ r, compose mws handler { continueOnError := false, errorHandler := eh } req = .ok r := by
  unfold compose
  rw [dispatch, if_neg (by omega)]
  by_cases h1 : 0 < mws.length
  · rw [dif_pos h1]
    rcases hres : (mws.get ⟨0, h1⟩) req
        (dispatch mws handler { continueOnError := false, errorHandler := eh } req (0 + 1))
        (((0 : Nat) : Int)) with ⟨res, idx2⟩
    cases res with
    | ok r => exact ⟨r, rfl⟩
    | error e =>
      obtain ⟨r, hr⟩ := heh e
      exact ⟨r, hr⟩
  · rw [dif_neg h1, if_pos (by omega)]
    cases hres : handler req with
    | ok r => exact ⟨r, rfl⟩
    | error e =>
      obtain ⟨r, hr⟩ := heh e
      exact ⟨r, hr⟩

/-- Witness for C3 (amended): a chain whose only middleware rejects and
whose terminal handler also rejects still delivers a response under
`continueOnError := false` with the default error handler. -/
theorem compose_always_response_witness :
    ∃ r, compose [fun _rq _next => fun s => (.error ⟨"boom"⟩, s)]
      (fun _ => .error ⟨"handler boom"⟩)
      { continueOnError := false, errorHandler := defaultErrorHandler }
      ⟨"GET", "https://e.com/", []⟩ = .ok r :=
  compose_always_response _ _ _ _
    (fun _e => ⟨⟨500, [("Content-Type", "application/json")],
      some "\x7b\"error\":\"Internal Server Error\"\x7d"⟩, rfl⟩)

/-- Counterexample to C3 as stated: with `continueOnError := true` and a
terminal handler that raises (and no middleware at all, so no continuation
is ever double-invoked), the caller receives the raw `No handler found`
error, not a Response: the skip-to-next recovery walks past the terminal
handler. -/
theorem compose_continueOnError_true_cex :
    compose [] (fun _ => .error ⟨"handler boom"⟩)
      { continueOnError := true, errorHandler := defaultErrorHandler }
      ⟨"GET", "https://e.com/", []⟩ = .error noHandlerErr := by
  unfold compose
  rw [dispatch, if_neg (by omega)]
  rw [dif_neg (by simp), if_pos (by simp)]
  show (dispatch [] (fun _ => .error ⟨"handler boom"⟩)
    { continueOnError := true, errorHandler := defaultErrorHandler }
    ⟨"GET", "https://e.com/", []⟩ (0 + 1) ((0 : Nat) : Int)).1 = .error noHandlerErr
  rw [dispatch, if_neg (by omega)]
  rw [dif_neg (by simp), if_neg (by simp)]

/-! ## Assoc lemmas (Headers.set / Headers.get interaction) -/

theorem find?_map_set_self (l : Assoc) (k v : String)
    (h : l.any (fun p => p.1 = k) = true) :
    (l.map (fun p => if p.1 = k then (k, v) else p)).find?
      (fun p => p.1 = k) = some (k, v) := by
  induction l with
  | nil => simp at h
  | cons p rest ih =>
    by_cases hp : p.1 = k
    · simp [List.find?_cons, hp]
    · simp only [List.any_cons, Bool.or_eq_true, decide_eq_true_eq] at h
      have hr := ih (h.resolve_left hp)
      rw [List.map_cons, if_neg hp, List.find?_cons_of_neg _ (by simp [hp]), hr]

theorem find?_append_none (l l2 : Assoc) (k : String)
    (h : ∀ p ∈ l, p.1 ≠ k) :
    (l ++ l2).find? (fun p => p.1 = k) = l2.find? (fun p => p.1 = k) := by
  induction l with
  | nil => rfl
  | cons p rest ih =>
    rw [List.cons_append, List.find?_cons_of_neg _ (by simp [h p (by simp)])]
    exact ih (fun q hq => h q (by simp [hq]))

theorem assocGet_assocSet_self (l : Assoc) (k v : String) :
    assocGet (assocSet l k v) k = some v := by
  unfold assocSet assocGet
  by_cases h : l.any (fun p => p.1 = k) = true
  · rw [if_pos h, find?_map_set_self l k v h]
    rfl
  · rw [if_neg h]
    have h2 : ∀ p ∈ l, p.1 ≠ k := by
      intro x hx hxk
      exact h (List.any_eq_true.mpr ⟨x, hx, by simp [hxk]⟩)
    rw [find?_append_none l [(k, v)] k h2, List.find?_cons_of_pos _ (by simp)]
    rfl

theorem find?_map_set_other (l : Assoc) (k k2 v : String) (hkk : k2 ≠ k) :
    (l.map (fun p => if p.1 = k2 then (k2, v) else p)).find? (fun p => p.1 = k)
      = l.find? (fun p => p.1 = k) := by
  induction l with
  | nil => rfl
  | cons p rest ih =>
    by_cases hp : p.1 = k2
    · rw [List.map_cons, if_pos hp,
        List.find?_cons_of_neg _ (by simp [hkk]),
        List.find?_cons_of_neg _ (by simp [hp, hkk])]
      exact ih
    · rw [List.map_cons, if_neg hp]
      by_cases hk : p.1 = k
      · rw [List.find?_cons_of_pos _ (by simp [hk]), List.find?_cons_of_pos _ (by simp [hk])]
      · rw [List.find?_cons_of_neg _ (by simp [hk]), List.find?_cons_of_neg _ (by simp [hk])]
        exact ih

theorem find?_append_nomatch (l : Assoc) (x : String × String) (k : String) (hx : x.1 ≠ k) :
    (l ++ [x]).find? (fun p => p.1 = k) = l.find? (fun p => p.1 = k) := by
  induction l with
  | nil =>
    show ([x]).find? _ = _
    rw [List.find?_cons_of_neg _ (by simp [hx])]
  | cons p rest ih =>
    by_cases hk : p.1 = k
    · rw [List.cons_append, List.find?_cons_of_pos _ (by simp [hk]),
        List.find?_cons_of_pos _ (by simp [hk])]
    · rw [List.cons_append, List.find?_cons_of_neg _ (by simp [hk]),
        List.find?_cons_of_neg _ (by simp [hk])]
      exact ih

theorem assocGet_assocSet_other (l : Assoc) (k k2 v : String) (hkk : k2 ≠ k) :
    assocGet (assocSet l k2 v) k = assocGet l k := by
  unfold assocSet assocGet
  by_cases h : l.any (fun p => p.1 = k2) = true
  · rw [if_pos h, find?_map_set_other l k k2 v hkk]
  · rw [if_neg h, find?_append_nomatch l (k2, v) k hkk]

/-! ## Rate limiter (`ratelimit.ts`) -/

/-- Configuration of `rateLimit`.  The default `keyGenerator` of the source
(hostname extraction via host URL parsing) is passed explicitly here. -/
structure RateLimitOptions where
  windowMs : Int
  maxRequests : Int
  keyGenerator : Request → String
  skipSuccessfulRequests : Bool := false

/-- One entry of the shared `clients` map (`{count, resetTime}`). -/
structure ClientEntry where
  count : Int
  resetTime : Int
deriving Repr, DecidableEq

/-- The shared `clients: Map<string, {count, resetTime}>` table. -/
abbrev Clients := String → Option ClientEntry

/-- The freshly created map of a new limiter instance. -/
def emptyClients : Clients := fun _ => none

/-- `clients.set(key, e)` (also the in-place `client.count++` mutation of a
stored entry, which updates the object held by the map). -/
def setClient (c : Clients) (k : String) (e : ClientEntry) : Clients :=
  fun k2 => if k2 = k then some e else c k2

/-- `Math.ceil(a / b)` on integers, for positive `b`. -/
def jsCeilDiv (a b : Int) : Int := (a + b - 1) / b

/-- The 429 rejection response built at lines 51-71 of `ratelimit.ts` for
the already incremented entry `client` at time `now`. -/
def tooManyRequestsResponse (maxRequests : Int) (client : ClientEntry) (now : Int) : Response :=
  { status := 429
    headers := [("Content-Type", "application/json"),
                ("Retry-After", toString (jsCeilDiv (client.resetTime - now) 1000)),
                ("X-RateLimit-Limit", toString maxRequests),
                ("X-RateLimit-Remaining", toString (max 0 (maxRequests - client.count))),
                ("X-RateLimit-Reset", toString client.resetTime)]
    body := some ("\x7b\"error\":\"Too Many Requests\",\"retryAfter\":"
      ++ toString (jsCeilDiv (client.resetTime - now) 1000) ++ "\x7d") }

/-- The three `X-RateLimit-*` headers set on a passing response
(lines 88-96 of `ratelimit.ts`). -/
def rlDecorate (hs : Assoc) (limit remaining reset : String) : Assoc :=
  assocSet (assocSet (assocSet hs
    "X-RateLimit-Limit" limit)
    "X-RateLimit-Remaining" remaining)
    "X-RateLimit-Reset" reset

/-- Outcome of the pre-continuation phase of the middleware. -/
inductive CheckResult where
  | rejected (resp : Response)
  | allowed
deriving Repr, DecidableEq

/-- Lines 43-73 of `ratelimit.ts`: look up the entry for the key, reset it
(absent or `now > resetTime`) or increment it, and either short-circuit
with the 429 response (`count > maxRequests`) or allow the request. -/
def rateLimitCheck (o : RateLimitOptions) (clients : Clients) (req : Request) (now : Int) :
    CheckResult × Clients :=
  let key := o.keyGenerator req
  match clients key with
  | none => (.allowed, setClient clients key ⟨1, now + o.windowMs⟩)
  | some client =>
    if now > client.resetTime then
      (.allowed, setClient clients key ⟨1, now + o.windowMs⟩)
    else
      let client2 : ClientEntry := ⟨client.count + 1, client.resetTime⟩
      if client2.count > o.maxRequests then
        (.rejected (tooManyRequestsResponse o.maxRequests client2 now),
          setClient clients key client2)
      else
        (.allowed, setClient clients key client2)

/-- Lines 77-97 of `ratelimit.ts`: after the continuation fulfilled,
optionally decrement the entry (skipSuccessfulRequests and status < 400,
floored at 0), then decorate the response with the `X-RateLimit-*`
headers from the entry as re-read after the decrement. -/
def rateLimitAfter (o : RateLimitOptions) (clients : Clients) (key : String) (resp : Response) :
    Response × Clients :=
  let clients2 :=
    if o.skipSuccessfulRequests ∧ resp.status < 400 then
      match clients key with
      | some c => setClient clients key ⟨max 0 (c.count - 1), c.resetTime⟩
      | none => clients
    else clients
  match clients2 key with
  | some c =>
    let hs := rlDecorate resp.headers (toString o.maxRequests)
      (toString (max 0 (o.maxRequests - c.count))) (toString c.resetTime)
    ({ resp with headers := hs }, clients2)
  | none => (resp, clients2)

/-- One full pass of the rate limiting middleware for a single request:
check, then (when allowed) await the continuation outcome `next` and
post-process.  A continuation rejection propagates unchanged (the
middleware body has no try/catch). -/
def rateLimitStep (o : RateLimitOptions) (clients : Clients) (req : Request) (now : Int)
    (next : Except Err Response) : Except Err Response × Clients :=
  match rateLimitCheck o clients req now with
  | (.rejected resp, clients2) => (.ok resp, clients2)
  | (.allowed, clients2) =>
    match next with
    | .error e => (.error e, clients2)
    | .ok resp =>
      let p := rateLimitAfter o clients2 (o.keyGenerator req) resp
      (.ok p.1, p.2)

/-- Sequential requests through one rate limiter instance; each list
element carries (request, current time, continuation outcome). -/
def rateLimitRun (o : RateLimitOptions) (clients : Clients) :
    List (Request × Int × Except Err Response) → List (Except Err Response) × Clients
  | [] => ([], clients)
  | (req, now, next) :: rest =>
    let p := rateLimitStep o clients req now next
    let q := rateLimitRun o p.2 rest
    (p.1 :: q.1, q.2)

/-- setClient lookup at the written key. -/
theorem setClient_self (c : Clients) (k : String) (e : ClientEntry) :
    setClient c k e k = some e := by
  simp [setClient]

/-- Step lemma: fresh key (or after reset the entry is absent), counting
mode (no skip), successful continuation. -/
theorem rateLimitStep_fresh (o : RateLimitOptions) (clients : Clients) (req : Request)
    (now : Int) (r : Response)
    (hnone : clients (o.keyGenerator req) = none)
    (hskip : o.skipSuccessfulRequests = false) :
    rateLimitStep o clients req now (.ok r) =
      (.ok { r with headers := (rlDecorate r.headers (toString o.maxRequests)
          (toString (max 0 (o.maxRequests - 1))) (toString (now + o.windowMs))) },
        setClient clients (o.keyGenerator req) ⟨1, now + o.windowMs⟩) := by
  simp [rateLimitStep, rateLimitCheck, rateLimitAfter, hnone, hskip, setClient_self]

/-- Step lemma: entry present, window not elapsed, incremented count within
the limit, counting mode, successful continuation. -/
theorem rateLimitStep_inWindow (o : RateLimitOptions) (clients : Clients) (req : Request)
    (now : Int) (r : Response) (c rt : Int)
    (hsome : clients (o.keyGenerator req) = some ⟨c, rt⟩)
    (hin : ¬ now > rt) (hcnt : ¬ c + 1 > o.maxRequests)
    (hskip : o.skipSuccessfulRequests = false) :
    rateLimitStep o clients req now (.ok r) =
      (.ok { r with headers := (rlDecorate r.headers (toString o.maxRequests)
          (toString (max 0 (o.maxRequests - (c + 1)))) (toString rt)) },
        setClient clients (o.keyGenerator req) ⟨c + 1, rt⟩) := by
  simp [rateLimitStep, rateLimitCheck, rateLimitAfter, hsome, hin, hcnt, hskip, setClient_self]

/-- Step lemma: entry present, window not elapsed, limit exceeded: the 429
short-circuit, independent of the continuation. -/
theorem rateLimitStep_reject (o : RateLimitOptions) (clients : Clients) (req : Request)
    (now : Int) (next : Except Err Response) (c rt : Int)
    (hsome : clients (o.keyGenerator req) = some ⟨c, rt⟩)
    (hin : ¬ now > rt) (hcnt : c + 1 > o.maxRequests) :
    rateLimitStep o clients req now next =
      (.ok (tooManyRequestsResponse o.maxRequests ⟨c + 1, rt⟩ now),
        setClient clients (o.keyGenerator req) ⟨c + 1, rt⟩) := by
  simp [rateLimitStep, rateLimitCheck, hsome, hin, hcnt]


/-- C4: four sequential same-key requests within one window under
windowMs=60000, maxRequests=3. -/
theorem rateLimit_four_calls (kg : Request → String)
    (req1 req2 req3 req4 : Request)
    (hk2 : kg req2 = kg req1) (hk3 : kg req3 = kg req1) (hk4 : kg req4 = kg req1)
    (t1 t2 t3 t4 : Int) (h12 : t1 ≤ t2) (h23 : t2 ≤ t3) (h34 : t3 ≤ t4)
    (hw : t4 < t1 + 60000)
    (r1 r2 r3 : Response) (next4 : Except Err Response) :
    (rateLimitRun ⟨60000, 3, kg, false⟩ emptyClients
        [(req1, t1, .ok r1), (req2, t2, .ok r2), (req3, t3, .ok r3), (req4, t4, next4)]).1
      = [.ok { r1 with headers := (rlDecorate r1.headers "3" "2" (toString (t1 + 60000))) },
         .ok { r2 with headers := (rlDecorate r2.headers "3" "1" (toString (t1 + 60000))) },
         .ok { r3 with headers := (rlDecorate r3.headers "3" "0" (toString (t1 + 60000))) },
         .ok { status := 429
               headers := [("Content-Type", "application/json"),
                 ("Retry-After", toString (jsCeilDiv (t1 + 60000 - t4) 1000)),
                 ("X-RateLimit-Limit", "3"), ("X-RateLimit-Remaining", "0"),
                 ("X-RateLimit-Reset", toString (t1 + 60000))]
               body := some ("\x7b\"error\":\"Too Many Requests\",\"retryAfter\":"
                 ++ toString (jsCeilDiv (t1 + 60000 - t4) 1000) ++ "\x7d") }]
    ∧ 0 < jsCeilDiv (t1 + 60000 - t4) 1000
    ∧ assocGet (rlDecorate r1.headers "3" "2" (toString (t1 + 60000)))
        "X-RateLimit-Remaining" = some "2"
    ∧ assocGet (rlDecorate r2.headers "3" "1" (toString (t1 + 60000)))
        "X-RateLimit-Remaining" = some "1"
    ∧ assocGet (rlDecorate r3.headers "3" "0" (toString (t1 + 60000)))
        "X-RateLimit-Remaining" = some "0" := by
  refine ⟨?_, by unfold jsCeilDiv; omega, ?_, ?_, ?_⟩
  · have e3 : toString ((3 : Int)) = "3" := by decide
    have e2 : toString (max 0 ((3 : Int) - 1)) = "2" := by decide
    have e1 : toString (max 0 ((3 : Int) - (1 + 1))) = "1" := by decide
    have e0 : toString (max 0 ((3 : Int) - (1 + 1 + 1))) = "0" := by decide
    have em : toString (max 0 ((3 : Int) - (1 + 1 + 1 + 1))) = "0" := by decide
    have step1 := rateLimitStep_fresh ⟨60000, 3, kg, false⟩ emptyClients req1 t1 r1 rfl rfl
    have hsome2 : (setClient emptyClients (kg req1) ⟨1, t1 + 60000⟩) (kg req2)
        = some ⟨1, t1 + 60000⟩ := by
      simp [setClient, hk2]
    have step2 := rateLimitStep_inWindow ⟨60000, 3, kg, false⟩
      (setClient emptyClients (kg req1) ⟨1, t1 + 60000⟩) req2 t2 r2 1 (t1 + 60000)
      hsome2 (by omega) (by norm_num) rfl
    have hsome3 : (setClient (setClient emptyClients (kg req1) ⟨1, t1 + 60000⟩)
        (kg req2) ⟨1 + 1, t1 + 60000⟩) (kg req3) = some ⟨1 + 1, t1 + 60000⟩ := by
      simp [setClient, hk2, hk3]
    have step3 := rateLimitStep_inWindow ⟨60000, 3, kg, false⟩
      (setClient (setClient emptyClients (kg req1) ⟨1, t1 + 60000⟩)
        (kg req2) ⟨1 + 1, t1 + 60000⟩) req3 t3 r3 (1 + 1) (t1 + 60000)
      hsome3 (by omega) (by norm_num) rfl
    have hsome4 : (setClient (setClient (setClient emptyClients (kg req1) ⟨1, t1 + 60000⟩)
        (kg req2) ⟨1 + 1, t1 + 60000⟩) (kg req3) ⟨1 + 1 + 1, t1 + 60000⟩) (kg req4)
        = some ⟨1 + 1 + 1, t1 + 60000⟩ := by
      simp [setClient, hk2, hk3, hk4]
    have step4 := rateLimitStep_reject ⟨60000, 3, kg, false⟩
      (setClient (setClient (setClient emptyClients (kg req1) ⟨1, t1 + 60000⟩)
        (kg req2) ⟨1 + 1, t1 + 60000⟩) (kg req3) ⟨1 + 1 + 1, t1 + 60000⟩) req4 t4 next4
      (1 + 1 + 1) (t1 + 60000) hsome4 (by omega) (by norm_num)
    simp only [rateLimitRun, step1, step2, step3, step4, tooManyRequestsResponse, e3, e2, e1, e0, em]
  · unfold rlDecorate
    rw [assocGet_assocSet_other _ _ _ _ (by decide), assocGet_assocSet_self]
  · unfold rlDecorate
    rw [assocGet_assocSet_other _ _ _ _ (by decide), assocGet_assocSet_self]
  · unfold rlDecorate
    rw [assocGet_assocSet_other _ _ _ _ (by decide), assocGet_assocSet_self]


/-- C5 (amended): the window resets only when the entry is absent or its
stored reset timestamp is strictly in the past. -/
theorem rateLimitCheck_reset (o : RateLimitOptions) (clients : Clients) (req : Request)
    (now : Int)
    (h : clients (o.keyGenerator req) = none
        ∨ ∃ c, clients (o.keyGenerator req) = some c ∧ c.resetTime < now) :
    rateLimitCheck o clients req now
      = (.allowed, setClient clients (o.keyGenerator req) ⟨1, now + o.windowMs⟩) := by
  rcases h with h | ⟨c, hc, hlt⟩
  · simp only [rateLimitCheck, h]
  · simp only [rateLimitCheck, hc]
    rw [if_pos (by omega)]

/-- Witness for C5 (amended). -/
theorem rateLimitCheck_reset_witness :
    rateLimitCheck ⟨60000, 3, (fun _ => "k"), false⟩ emptyClients ⟨"GET", "u", []⟩ 5
      = (.allowed, setClient emptyClients "k" ⟨1, 5 + 60000⟩) :=
  rateLimitCheck_reset _ _ _ _ (.inl rfl)

/-- Counterexample to C5 as stated: with an entry whose resetAt equals the
current time (maxRequests 3, count already 3), the request is not treated
as allowed and the entry is not replaced by count 1: the code resets only
on `now > resetTime`, so at `resetAt = now` it increments and rejects. -/
theorem rateLimitCheck_boundary_cex :
    (rateLimitCheck ⟨60000, 3, (fun _ => "k"), false⟩
        (fun k2 => if k2 = "k" then some ⟨3, 100⟩ else none) ⟨"GET", "u", []⟩ 100).1
      ≠ CheckResult.allowed
    ∧ (rateLimitCheck ⟨60000, 3, (fun _ => "k"), false⟩
        (fun k2 => if k2 = "k" then some ⟨3, 100⟩ else none) ⟨"GET", "u", []⟩ 100).2 "k"
      ≠ some ⟨1, 100 + 60000⟩ := by
  constructor
  · decide
  · decide

/-- The in-window allowed branch of the check phase. -/
theorem rateLimitCheck_inWindow (o : RateLimitOptions) (clients : Clients) (req : Request)
    (now : Int) (c rt : Int)
    (hsome : clients (o.keyGenerator req) = some ⟨c, rt⟩)
    (hwin : ¬ now > rt) (hcnt : ¬ c + 1 > o.maxRequests) :
    rateLimitCheck o clients req now
      = (.allowed, setClient clients (o.keyGenerator req) ⟨c + 1, rt⟩) := by
  simp only [rateLimitCheck, hsome]
  rw [if_neg hwin, if_neg hcnt]

/-- The check phase feeding an allowed request into the continuation and
the post-processing phase. -/
theorem rateLimitStep_allowed (o : RateLimitOptions) (clients clients2 : Clients)
    (req : Request) (now : Int) (resp : Response)
    (hcheck : rateLimitCheck o clients req now = (.allowed, clients2)) :
    rateLimitStep o clients req now (.ok resp)
      = (.ok (rateLimitAfter o clients2 (o.keyGenerator req) resp).1,
         (rateLimitAfter o clients2 (o.keyGenerator req) resp).2) := by
  simp only [rateLimitStep, hcheck]

/-- The post-processing phase when skipping successful responses. -/
theorem rateLimitAfter_skip (o : RateLimitOptions) (clients : Clients) (key : String)
    (resp : Response) (c rt : Int)
    (ho : o.skipSuccessfulRequests = true) (hst : resp.status < 400)
    (hsome : clients key = some ⟨c, rt⟩) :
    rateLimitAfter o clients key resp
      = ({ resp with headers := (rlDecorate resp.headers (toString o.maxRequests)
            (toString (max 0 (o.maxRequests - max 0 (c - 1)))) (toString rt)) },
         setClient clients key ⟨max 0 (c - 1), rt⟩) := by
  simp only [rateLimitAfter, ho, hsome, setClient_self]
  rw [if_pos ⟨by simp, hst⟩]
  simp only [hsome, setClient_self]

/-- Invariant for the skipSuccessfulRequests argument: every entry is
absent or holds count 0. -/
def zeroOrAbsent (clients : Clients) : Prop :=
  ∀ k, clients k = none ∨ ∃ rt, clients k = some ⟨0, rt⟩

theorem setClient_zeroOrAbsent (clients : Clients) (key : String) (e : ClientEntry)
    (rt : Int) (hc : zeroOrAbsent clients) :
    zeroOrAbsent (setClient (setClient clients key e) key ⟨0, rt⟩) := by
  intro k2
  by_cases hk : k2 = key
  · exact .inr ⟨rt, by simp [setClient, hk]⟩
  · rcases hc k2 with h2 | ⟨rt2, h2⟩
    · exact .inl (by simp [setClient, hk, h2])
    · exact .inr ⟨rt2, by simp [setClient, hk, h2]⟩

theorem rateLimitStep_skip_allowed (o : RateLimitOptions)
    (ho : o.skipSuccessfulRequests = true) (hmax : 1 ≤ o.maxRequests)
    (clients : Clients) (hc : zeroOrAbsent clients) (req : Request) (now : Int)
    (resp : Response) (hst : resp.status < 400) :
    (∃ resp2, (rateLimitStep o clients req now (.ok resp)).1 = .ok resp2
      ∧ resp2.status = resp.status)
    ∧ zeroOrAbsent (rateLimitStep o clients req now (.ok resp)).2 := by
  have key := o.keyGenerator req
  rcases hc (o.keyGenerator req) with h | ⟨rt, h⟩
  · have hcheck := rateLimitCheck_reset o clients req now (.inl h)
    rw [rateLimitStep_allowed o clients _ req now resp hcheck,
      rateLimitAfter_skip o _ _ resp 1 (now + o.windowMs) ho hst (setClient_self _ _ _)]
    refine ⟨⟨_, rfl, rfl⟩, ?_⟩
    have h0 : (max 0 ((1:Int) - 1)) = 0 := by norm_num
    rw [h0]
    exact setClient_zeroOrAbsent _ _ _ _ hc
  · by_cases hwin : now > rt
    · have hcheck := rateLimitCheck_reset o clients req now (.inr ⟨⟨0, rt⟩, h, by show rt < now; omega⟩)
      rw [rateLimitStep_allowed o clients _ req now resp hcheck,
        rateLimitAfter_skip o _ _ resp 1 (now + o.windowMs) ho hst (setClient_self _ _ _)]
      refine ⟨⟨_, rfl, rfl⟩, ?_⟩
      have h0 : (max 0 ((1:Int) - 1)) = 0 := by norm_num
      rw [h0]
      exact setClient_zeroOrAbsent _ _ _ _ hc
    · have hcheck := rateLimitCheck_inWindow o clients req now 0 rt h hwin (by omega)
      rw [rateLimitStep_allowed o clients _ req now resp hcheck,
        rateLimitAfter_skip o _ _ resp (0 + 1) rt ho hst (setClient_self _ _ _)]
      refine ⟨⟨_, rfl, rfl⟩, ?_⟩
      have h0 : (max 0 ((0:Int) + 1 - 1)) = 0 := by norm_num
      rw [h0]
      exact setClient_zeroOrAbsent _ _ _ _ hc


theorem rateLimitRun_skip_aux (o : RateLimitOptions)
    (ho : o.skipSuccessfulRequests = true) (hmax : 1 ≤ o.maxRequests) :
    ∀ (reqs : List (Request × Int × Except Err Response)) (clients : Clients),
      zeroOrAbsent clients →
      (∀ x ∈ reqs, ∃ resp, x.2.2 = Except.ok resp ∧ resp.status < 400) →
      ∀ out ∈ (rateLimitRun o clients reqs).1,
        ∃ resp2, out = .ok resp2 ∧ resp2.status < 400 := by
  intro reqs
  induction reqs with
  | nil =>
    intro clients _ _ out hout
    simp [rateLimitRun] at hout
  | cons x rest ih =>
    intro clients hc hsucc out hout
    obtain ⟨req, now, next⟩ := x
    obtain ⟨resp, hnext, hst⟩ := hsucc (req, now, next) (by simp)
    simp only at hnext
    subst hnext
    obtain ⟨⟨resp2, hr2, hst2⟩, hinv⟩ :=
      rateLimitStep_skip_allowed o ho hmax clients hc req now resp hst
    simp only [rateLimitRun] at hout
    rcases List.mem_cons.mp hout with h1 | h2
    · exact ⟨resp2, h1 ▸ hr2, by rw [hst2]; exact hst⟩
    · exact ih (rateLimitStep o clients req now (.ok resp)).2 hinv
        (fun y hy => hsucc y (by simp [hy])) out h2

/-- C8: with skipSuccessfulRequests=true, a successful (status < 400)
response causes the entry count to be decremented (floored at 0),
compensating the increment on entry; consequently maxRequests+1
consecutive same-instance requests whose continuations all succeed are
all allowed (each result is a response of the successful status, never
a 429). -/
theorem rateLimit_skipSuccessfulRequests (o : RateLimitOptions)
    (ho : o.skipSuccessfulRequests = true) (hmax : 1 ≤ o.maxRequests) :
    (∀ (clients : Clients) (req : Request) (now : Int) (resp : Response) (c rt : Int),
      clients (o.keyGenerator req) = some ⟨c, rt⟩ → ¬ now > rt →
      ¬ c + 1 > o.maxRequests → resp.status < 400 →
      (rateLimitStep o clients req now (.ok resp)).2 (o.keyGenerator req)
        = some ⟨max 0 c, rt⟩)
    ∧ (∀ reqs : List (Request × Int × Except Err Response),
        (∀ x ∈ reqs, ∃ resp, x.2.2 = Except.ok resp ∧ resp.status < 400) →
        (reqs.length : Int) = o.maxRequests + 1 →
        ∀ out ∈ (rateLimitRun o emptyClients reqs).1,
          ∃ resp2, out = .ok resp2 ∧ resp2.status < 400) := by
  constructor
  · intro clients req now resp c rt hsome hwin hcnt hst
    rw [rateLimitStep_allowed o clients _ req now resp
        (rateLimitCheck_inWindow o clients req now c rt hsome hwin hcnt),
      rateLimitAfter_skip o _ _ resp (c + 1) rt ho hst (setClient_self _ _ _)]
    simp [setClient_self]
  · intro reqs hsucc _
    exact rateLimitRun_skip_aux o ho hmax reqs emptyClients (fun _ => .inl rfl) hsucc

/-- Witness for C8: maxRequests = 1 and two successful same-key requests;
the second output is still an allowed 200 response. -/
theorem rateLimit_skipSuccessfulRequests_witness :
    ∃ resp2, ((rateLimitRun ⟨60000, 1, (fun _ => "k"), true⟩ emptyClients
        [(⟨"GET", "u", []⟩, 10, .ok ⟨200, [], none⟩),
         (⟨"GET", "u", []⟩, 20, .ok ⟨200, [], none⟩)]).1.get
        ⟨1, by decide⟩) = .ok resp2 ∧ resp2.status < 400 :=
  (rateLimit_skipSuccessfulRequests ⟨60000, 1, (fun _ => "k"), true⟩ rfl (by norm_num)).2
    [(⟨"GET", "u", []⟩, 10, .ok ⟨200, [], none⟩), (⟨"GET", "u", []⟩, 20, .ok ⟨200, [], none⟩)]
    (by
      intro x hx
      simp only [List.mem_cons, List.mem_singleton] at hx
      rcases hx with h | h | h
      · exact ⟨⟨200, [], none⟩, by rw [h], by norm_num⟩
      · exact ⟨⟨200, [], none⟩, by rw [h], by norm_num⟩
      · cases h)
    (by norm_num)
    _ (List.get_mem _ _ _)

/-- Witness for C4: concrete four-call run at times 0,1,2,3. -/
theorem rateLimit_four_calls_witness :
    (rateLimitRun ⟨60000, 3, (fun _ => "h"), false⟩ emptyClients
        [(⟨"GET", "u", []⟩, 0, .ok ⟨200, [], none⟩),
         (⟨"GET", "u", []⟩, 1, .ok ⟨200, [], none⟩),
         (⟨"GET", "u", []⟩, 2, .ok ⟨200, [], none⟩),
         (⟨"GET", "u", []⟩, 3, .ok ⟨201, [], none⟩)]).1
      = [.ok ⟨200, rlDecorate [] "3" "2" (toString ((0 : Int) + 60000)), none⟩,
         .ok ⟨200, rlDecorate [] "3" "1" (toString ((0 : Int) + 60000)), none⟩,
         .ok ⟨200, rlDecorate [] "3" "0" (toString ((0 : Int) + 60000)), none⟩,
         .ok ⟨429, [("Content-Type", "application/json"),
               ("Retry-After", toString (jsCeilDiv (0 + 60000 - 3) 1000)),
               ("X-RateLimit-Limit", "3"), ("X-RateLimit-Remaining", "0"),
               ("X-RateLimit-Reset", toString ((0 : Int) + 60000))],
             some ("\x7b\"error\":\"Too Many Requests\",\"retryAfter\":"
               ++ toString (jsCeilDiv (0 + 60000 - 3) 1000) ++ "\x7d")⟩]
    ∧ 0 < jsCeilDiv (0 + 60000 - 3) 1000
    ∧ assocGet (rlDecorate [] "3" "2" (toString ((0 : Int) + 60000)))
        "X-RateLimit-Remaining" = some "2"
    ∧ assocGet (rlDecorate [] "3" "1" (toString ((0 : Int) + 60000)))
        "X-RateLimit-Remaining" = some "1"
    ∧ assocGet (rlDecorate [] "3" "0" (toString ((0 : Int) + 60000)))
        "X-RateLimit-Remaining" = some "0" :=
  rateLimit_four_calls (fun _ => "h") ⟨"GET", "u", []⟩ ⟨"GET", "u", []⟩ ⟨"GET", "u", []⟩
    ⟨"GET", "u", []⟩ rfl rfl rfl 0 1 2 3 (by norm_num) (by norm_num) (by norm_num)
    (by norm_num) ⟨200, [], none⟩ ⟨200, [], none⟩ ⟨200, [], none⟩ (.ok ⟨201, [], none⟩)

/-! ## Timeout guard (`timeout`) -/

/-- How the continuation promise behaves for one request: it fulfils at
time `t` (milliseconds after the middleware started), rejects at time `t`,
or never settles.  The race against the deadline timer of `timeoutMs` is
decided by the earlier settlement; the model resolves an exact tie in
favour of the deadline, and the claims only concern strict orderings. -/
inductive ContOutcome where
  | resolves (t : Int) (resp : Response)
  | throws (t : Int) (e : Err)
  | never
deriving Repr, DecidableEq

/-- The 408 response built at lines 36-39 of the timeout middleware. -/
def requestTimeoutResponse : Response :=
  ⟨408, [("Content-Type", "application/json")], some "\x7b\"error\":\"Request Timeout\"\x7d"⟩

/-- The timeout middleware: race the continuation against the deadline.
A deadline win rejects the race with `Error("Request timeout")`, which the
catch converts to the 408 response; a continuation rejection before the
deadline is re-thrown unless its message equals "Request timeout" (the
catch tests only the message).  The second component records whether
`clearTimeout` ran before the deadline fired (the timer was cancelled). -/
def timeoutRun (timeoutMs : Int) (c : ContOutcome) : Except Err Response × Bool :=
  match c with
  | .resolves t resp =>
    if t < timeoutMs then (.ok resp, true)
    else (.ok requestTimeoutResponse, false)
  | .throws t e =>
    if t < timeoutMs then
      (if e.message = "Request timeout" then .ok requestTimeoutResponse else .error e, true)
    else (.ok requestTimeoutResponse, false)
  | .never => (.ok requestTimeoutResponse, false)

/-- C6: a continuation response arriving before the deadline is returned
unmodified with the deadline timer cancelled; a continuation that has not
resolved when the deadline fires (late or never) yields the 408 response
with JSON content type and the Request Timeout body. -/
theorem timeout_race (timeoutMs t : Int) (resp : Response) :
    (t < timeoutMs → timeoutRun timeoutMs (.resolves t resp) = (.ok resp, true))
    ∧ (timeoutMs ≤ t → timeoutRun timeoutMs (.resolves t resp)
        = (.ok requestTimeoutResponse, false))
    ∧ timeoutRun timeoutMs .never = (.ok requestTimeoutResponse, false)
    ∧ requestTimeoutResponse.status = 408
    ∧ assocGet requestTimeoutResponse.headers "Content-Type" = some "application/json"
    ∧ requestTimeoutResponse.body = some "\x7b\"error\":\"Request Timeout\"\x7d" := by
  refine ⟨fun h => by simp [timeoutRun, h], fun h => ?_, rfl, rfl, by decide, rfl⟩
  simp [timeoutRun, show ¬ t < timeoutMs by omega]

/-- Witness for C6. -/
theorem timeout_race_witness :
    timeoutRun 100 (.resolves 5 ⟨200, [], some "ok"⟩) = (.ok ⟨200, [], some "ok"⟩, true)
    ∧ timeoutRun 100 (.resolves 250 ⟨200, [], some "ok"⟩)
        = (.ok requestTimeoutResponse, false) :=
  ⟨(timeout_race 100 5 ⟨200, [], some "ok"⟩).1 (by norm_num),
   (timeout_race 100 250 ⟨200, [], some "ok"⟩).2.1 (by norm_num)⟩

/-- C7 (amended): an error raised by the continuation before the deadline
whose message differs from "Request timeout" propagates unchanged; an
error carrying exactly that message is indistinguishable from the internal
deadline signal and is converted into the 408 timeout response. -/
theorem timeout_error_propagates (timeoutMs t : Int) (e : Err)
    (ht : t < timeoutMs) (hm : e.message ≠ "Request timeout") :
    timeoutRun timeoutMs (.throws t e) = (.error e, true) := by
  simp [timeoutRun, ht, hm]

/-- Witness for C7 (amended). -/
theorem timeout_error_propagates_witness :
    timeoutRun 100 (.throws 5 ⟨"boom"⟩) = (.error ⟨"boom"⟩, true) :=
  timeout_error_propagates 100 5 ⟨"boom"⟩ (by norm_num) (by decide)

/-- Counterexample to C7 as stated: a continuation error whose message is
exactly "Request timeout", raised well before the deadline, is not
propagated: it is converted into the 408 timeout response. -/
theorem timeout_error_converted_cex :
    timeoutRun 100 (.throws 5 ⟨"Request timeout"⟩) = (.ok requestTimeoutResponse, true) := by
  rfl

/-! ## Request context store (`getContext` / `setContext`) -/

/-- The per-request context object: a JS object as a key-value list
(values modelled as strings). -/
abbrev RequestContext := Assoc

/-- `getContext(req)`, acting on the state of the request.context
property: returns the stored context when present, otherwise a fresh empty
object; the property itself is only read, never written (line 122). -/
def getContext (slot : Option RequestContext) :
    RequestContext × Option RequestContext :=
  (slot.getD [], slot)

/-- `setContext(req, key, value)`: fetch-or-create via getContext, write
the key, and store the context back on the request (lines 132-136). -/
def setContext (slot : Option RequestContext) (k v : String) :
    Option RequestContext :=
  some (assocSet (getContext slot).1 k v)

/-- C9 (amended): getContext never writes the request.context slot (a
context created for a context-less request is not associated with the
request), while setContext fetches-or-creates, writes and stores, so a
subsequent getContext observes the written value. -/
theorem context_ops (slot : Option RequestContext) (k v : String) :
    (getContext slot).2 = slot
    ∧ assocGet (getContext (setContext slot k v)).1 k = some v := by
  exact ⟨rfl, assocGet_assocSet_self _ _ _⟩

/-- Counterexample to C9 as stated: on a request without a context the
first getContext call returns an empty context but does not associate it
with the request (the slot stays empty), so a mutation of the returned
object is invisible to a second getContext call on the same request. -/
theorem getContext_no_association_cex :
    (getContext none).2 = none
    ∧ (getContext none).2 ≠ some (getContext none).1
    ∧ (getContext ((getContext none).2)).1 ≠ assocSet (getContext none).1 "k" "v" := by
  refine ⟨rfl, by decide, by decide⟩

/-! ## CORS middleware (`cors`) -/

/-- The `origin` option: a single string (wildcard or literal) or an
allow-list of literal origins. -/
inductive OriginConfig where
  | single (s : String)
  | list (origins : List String)
deriving Repr, DecidableEq

/-- CORS configuration with the source defaults. -/
structure CorsOptions where
  origin : OriginConfig := .single "*"
  methods : List String := ["GET", "POST", "PUT", "DELETE", "OPTIONS"]
  headers : List String := ["Content-Type", "Authorization"]
  credentials : Bool := false
  maxAge : Int := 86400

/-- Lines 47-54 and 71-78 of the cors middleware: set
Access-Control-Allow-Origin, always for a string config; for a list config
only when the request carries a truthy (non-empty) Origin header whose
value is in the list. -/
def corsSetAllowOrigin (origin : OriginConfig) (req : Request) (hs : Assoc) : Assoc :=
  match origin with
  | .single s => assocSet hs "Access-Control-Allow-Origin" s
  | .list origins =>
    match assocGet req.headers "Origin" with
    | some reqOrigin =>
      if reqOrigin ≠ "" ∧ reqOrigin ∈ origins then
        assocSet hs "Access-Control-Allow-Origin" reqOrigin
      else hs
    | none => hs

/-- The headers of the preflight 204 response (lines 44-62). -/
def corsPreflightHeaders (o : CorsOptions) (req : Request) : Assoc :=
  let hs := corsSetAllowOrigin o.origin req []
  let hs := assocSet hs "Access-Control-Allow-Methods" (String.intercalate ", " o.methods)
  let hs := assocSet hs "Access-Control-Allow-Headers" (String.intercalate ", " o.headers)
  let hs := assocSet hs "Access-Control-Max-Age" (toString o.maxAge)
  if o.credentials then assocSet hs "Access-Control-Allow-Credentials" "true" else hs

/-- The cors middleware body for one request; the second component records
whether the continuation was invoked.  On OPTIONS it short-circuits with
the preflight response; otherwise it decorates the continuation result
(and propagates a continuation rejection). -/
def cors (o : CorsOptions) (req : Request) (next : Except Err Response) :
    Except Err Response × Bool :=
  if req.method = "OPTIONS" then
    (.ok ⟨204, corsPreflightHeaders o req, none⟩, false)
  else
    match next with
    | .error e => (.error e, true)
    | .ok resp =>
      let hs := corsSetAllowOrigin o.origin req resp.headers
      let hs := if o.credentials then assocSet hs "Access-Control-Allow-Credentials" "true"
        else hs
      (.ok { resp with headers := hs }, true)

/-- C10: every OPTIONS request is answered directly with a 204 empty-body
response; the continuation is never invoked and the result does not depend
on it, so no downstream stage or terminal handler runs; and with an
allow-list origin config and a missing or non-matching Origin header the
204 response simply lacks the Access-Control-Allow-Origin header. -/
theorem cors_options_preflight (o : CorsOptions) (req : Request)
    (next : Except Err Response) (hm : req.method = "OPTIONS") :
    (cors o req next).2 = false
    ∧ (∀ next2, cors o req next2 = cors o req next)
    ∧ (cors o req next).1 = .ok ⟨204, corsPreflightHeaders o req, none⟩
    ∧ (∀ origins, o.origin = .list origins →
        (assocGet req.headers "Origin" = none
          ∨ ∀ ro, assocGet req.headers "Origin" = some ro → ro ∉ origins) →
        assocGet (corsPreflightHeaders o req) "Access-Control-Allow-Origin" = none) := by
  refine ⟨by simp [cors, hm], fun next2 => by simp [cors, hm], by simp [cors, hm], ?_⟩
  intro origins ho hno
  have hbase : corsSetAllowOrigin o.origin req [] = [] := by
    rw [ho]
    unfold corsSetAllowOrigin
    cases hog : assocGet req.headers "Origin" with
    | none => rfl
    | some ro =>
      rcases hno with h | h
      · rw [hog] at h
        cases h
      · show (if ro ≠ "" ∧ ro ∈ origins then
            assocSet [] "Access-Control-Allow-Origin" ro else []) = []
        exact if_neg (fun hand => h ro hog hand.2)
  unfold corsPreflightHeaders
  rw [hbase]
  by_cases hcred : o.credentials
  · rw [if_pos hcred,
      assocGet_assocSet_other _ _ _ _ (by decide),
      assocGet_assocSet_other _ _ _ _ (by decide),
      assocGet_assocSet_other _ _ _ _ (by decide),
      assocGet_assocSet_other _ _ _ _ (by decide)]
    rfl
  · rw [if_neg hcred,
      assocGet_assocSet_other _ _ _ _ (by decide),
      assocGet_assocSet_other _ _ _ _ (by decide),
      assocGet_assocSet_other _ _ _ _ (by decide)]
    rfl

/-- Witness for C10: an OPTIONS request whose Origin is not in the
allow-list. -/
theorem cors_options_preflight_witness :
    (cors { origin := .list ["https://a.com"] }
        ⟨"OPTIONS", "u", [("Origin", "https://b.com")]⟩ (.ok ⟨200, [], none⟩)).2 = false
    ∧ (∀ next2, cors { origin := .list ["https://a.com"] }
        ⟨"OPTIONS", "u", [("Origin", "https://b.com")]⟩ next2
        = cors { origin := .list ["https://a.com"] }
            ⟨"OPTIONS", "u", [("Origin", "https://b.com")]⟩ (.ok ⟨200, [], none⟩))
    ∧ (cors { origin := .list ["https://a.com"] }
        ⟨"OPTIONS", "u", [("Origin", "https://b.com")]⟩ (.ok ⟨200, [], none⟩)).1
        = .ok ⟨204, corsPreflightHeaders { origin := .list ["https://a.com"] }
            ⟨"OPTIONS", "u", [("Origin", "https://b.com")]⟩, none⟩
    ∧ (∀ origins, ({ origin := .list ["https://a.com"] } : CorsOptions).origin
          = .list origins →
        (assocGet (⟨"OPTIONS", "u", [("Origin", "https://b.com")]⟩ : Request).headers
            "Origin" = none
          ∨ ∀ ro, assocGet (⟨"OPTIONS", "u", [("Origin", "https://b.com")]⟩ : Request).headers
              "Origin" = some ro → ro ∉ origins) →
        assocGet (corsPreflightHeaders { origin := .list ["https://a.com"] }
            ⟨"OPTIONS", "u", [("Origin", "https://b.com")]⟩)
          "Access-Control-Allow-Origin" = none) :=
  cors_options_preflight { origin := .list ["https://a.com"] }
    ⟨"OPTIONS", "u", [("Origin", "https://b.com")]⟩ (.ok ⟨200, [], none⟩) rfl

end Snaapi